import Mathlib

/-!
Shallow embedding of the module lifecycle manager of the mokasi repository:
`core/module_loader.py` (ModuleLoader.load_module, unload_module, reload_module,
the dependency installer), `core/database.py` (ModuleRecord.add_module,
get_module, delete_module; ErrorLog.log_error) and `modules/system/manager.py`
(load_module_handler, cancel_load_callback, unload_module_handler).

Python state is made explicit: the in-memory catalog `loaded_modules`, the
durable `modules` table, the `error_logs` table, `sys.modules`, the file
system, and the trace of external installer invocations.  A Python exception
is a value of `PyExc`; a `try` body is a function into `Except`, whose error
value carries the state at raise time (mutations made before the raise
persist, as in Python).  A storage write fault (the source of the spec's
`RegistryError` classification) is modelled by the flag `dbOk`: when it is
`false`, writes to the `modules` table raise.
-/

/-- A Python exception: `type(e).__name__`, `str(e)`, `traceback.format_exc()`. -/
structure PyExc where
  ty : String
  msg : String
  tb : String
deriving DecidableEq

/-- `ModuleInfo` from core/module_loader.py: the descriptor a module's
`register` entrypoint returns. -/
structure ModuleInfo where
  name : String
  description : String
  commands : List (String × String)
  is_system : Bool
  dependencies : List String
deriving DecidableEq

/-- A row of the durable `modules` table (core/database.py, ModuleRecord). -/
structure ModuleRow where
  name : String
  file_path : String
  is_system : Bool
  is_active : Bool
  added_at : Nat
  updated_at : Nat
deriving DecidableEq

/-- A row of the durable `error_logs` table (core/database.py, ErrorLog). -/
structure ErrorRow where
  module_name : Option String
  error_type : String
  error_message : String
  traceback : Option String
deriving DecidableEq

/-- Behaviour of a module artifact's `register` entrypoint when invoked:
it raises, returns something that is not a `ModuleInfo`, or returns one. -/
inductive RegisterResult where
  | fault (e : PyExc)
  | invalid
  | ok (info : ModuleInfo)
deriving DecidableEq

/-- A module artifact on disk, characterised by the behaviour of its code:
whether executing its top level raises, whether it has a `register`
attribute, its module-level `DEPENDENCIES` list (absent encoded as `[]`,
which the loader treats identically), and what `register` does. -/
structure Artifact where
  execFault : Option PyExc
  hasRegister : Bool
  dependencies : List String
  register : RegisterResult
deriving DecidableEq

/-- Result of one external `pip install` invocation that ran to completion:
return code 0, or a nonzero return code with captured stderr. -/
inductive InstallOutcome where
  | ok
  | fail (stderr : String)
deriving DecidableEq

/-- The external package-installation capability: given a specifier and a
timeout bound, the environment produces an outcome. -/
def Installer : Type := String → Nat → InstallOutcome

/-- Observable result of `_install_dependencies`: the returned boolean, the
ordered trace of installer invocations `(specifier, timeout)` made, and the
logged failure report `(specifier, stderr)` when a specifier failed. -/
structure InstallRes where
  success : Bool
  calls : List (String × Nat)
  failed : Option (String × String)
deriving DecidableEq

/-- The whole mutable state the lifecycle manager touches. -/
structure LoaderState where
  loaded_modules : List (String × ModuleInfo)
  modules_table : List ModuleRow
  error_logs : List ErrorRow
  sys_modules : List String
  files : List (String × Artifact)
  admins : List Nat
  admin_id : Nat
  dbOk : Bool
  now : Nat
  pip_calls : List (String × Nat)
deriving DecidableEq

/-- The exception a storage write raises when the database is faulted. -/
def dbExc : PyExc :=
  { ty := "OperationalError", msg := "database write failed",
    tb := "OperationalError: database write failed" }

/-- Python dict assignment `d[k] = v` on an association list. -/
def dictInsert {β : Type} (k : String) (v : β) (l : List (String × β)) :
    List (String × β) :=
  (k, v) :: l.filter (fun p => p.1 != k)

/-- ErrorLog.log_error (core/database.py): append one row to `error_logs`. -/
def log_error (logs : List ErrorRow) (error_type error_message : String)
    (module_name : Option String) (tb : Option String) : List ErrorRow :=
  logs ++ [{ module_name := module_name, error_type := error_type,
             error_message := error_message, traceback := tb }]

/-- ModuleRecord.get_module (core/database.py): first row with this name. -/
def get_module (db : List ModuleRow) (name : String) : Option ModuleRow :=
  db.find? (fun r => r.name == name)

/-- ModuleRecord.add_module (core/database.py): `get_or_create` with
defaults `file_path`, `is_system`; when the row already exists, overwrite
`file_path`, set `is_active := true` and save (bumping `updated_at`).
A storage fault makes the write raise; add_module re-raises it. -/
def add_module (dbOk : Bool) (db : List ModuleRow) (name file_path : String)
    (is_system : Bool) (now : Nat) : Except PyExc (List ModuleRow) :=
  if dbOk then
    match db.find? (fun r => r.name == name) with
    | some _ =>
        Except.ok (db.map (fun r =>
          if r.name == name then
            { r with file_path := file_path, is_active := true, updated_at := now }
          else r))
    | none =>
        Except.ok (db ++ [{ name := name, file_path := file_path,
                            is_system := is_system, is_active := true,
                            added_at := now, updated_at := now }])
  else Except.error dbExc

/-- ModuleRecord.delete_module (core/database.py): delete the row when it
exists and is not a system module; any storage exception is caught and
turned into `false` with the table untouched. -/
def delete_module (dbOk : Bool) (db : List ModuleRow) (name : String) :
    Bool × List ModuleRow :=
  match get_module db name with
  | some m =>
      if m.is_system then (false, db)
      else if dbOk then (true, db.filter (fun r => r.name != name))
      else (false, db)
  | none => (false, db)

/-- ModuleLoader._install_dependencies (core/module_loader.py): run the
installer on each specifier in order with timeout 300; stop at the first
nonzero return code, logging the specifier and its stderr. -/
def install_dependencies (inst : Installer) : List String → InstallRes
  | [] => { success := true, calls := [], failed := none }
  | dep :: rest =>
    match inst dep 300 with
    | InstallOutcome.ok =>
        let r := install_dependencies inst rest
        { r with calls := (dep, 300) :: r.calls }
    | InstallOutcome.fail stderr =>
        { success := false, calls := [(dep, 300)], failed := some (dep, stderr) }

/-- Tail of ModuleLoader.load_module after dependency provisioning: invoke
`register`; when it returns a ModuleInfo, tag it with `is_system`, insert the
catalog entry, then write the registry row via `add_module`. -/
def loadRegisterStep (st : LoaderState) (file_path module_name : String)
    (is_system : Bool) (art : Artifact) :
    Except (PyExc × LoaderState) (Bool × LoaderState) :=
  match art.register with
  | RegisterResult.fault e => Except.error (e, st)
  | RegisterResult.invalid => Except.ok (false, st)
  | RegisterResult.ok info =>
      match add_module st.dbOk st.modules_table module_name file_path is_system st.now with
      | Except.ok tbl =>
          Except.ok (true, { st with
            loaded_modules :=
              dictInsert module_name { info with is_system := is_system } st.loaded_modules,
            modules_table := tbl })
      | Except.error e =>
          Except.error (e, { st with
            loaded_modules :=
              dictInsert module_name { info with is_system := is_system } st.loaded_modules })

/-- Dependency step of ModuleLoader.load_module, reached when the module
declares a non-empty `DEPENDENCIES` list: run the installer (the pip-call
trace grows by the invocations made) and abort with False when it fails. -/
def loadDepsStep (inst : Installer) (st : LoaderState) (file_path module_name : String)
    (is_system : Bool) (art : Artifact) :
    Except (PyExc × LoaderState) (Bool × LoaderState) :=
  if (install_dependencies inst art.dependencies).success then
    loadRegisterStep
      { st with pip_calls := st.pip_calls ++ (install_dependencies inst art.dependencies).calls }
      file_path module_name is_system art
  else
    Except.ok (false,
      { st with pip_calls := st.pip_calls ++ (install_dependencies inst art.dependencies).calls })

/-- Body of ModuleLoader.load_module after the module object was put into
sys.modules: execute the module, check the `register` attribute, provision
a non-empty `DEPENDENCIES` list, then run the register step. -/
def loadExecStep (inst : Installer) (st : LoaderState) (file_path module_name : String)
    (is_system : Bool) (art : Artifact) :
    Except (PyExc × LoaderState) (Bool × LoaderState) :=
  match art.execFault with
  | some e => Except.error (e, st)
  | none =>
    if art.hasRegister then
      if art.dependencies.isEmpty then
        loadRegisterStep st file_path module_name is_system art
      else
        loadDepsStep inst st file_path module_name is_system art
    else Except.ok (false, st)

/-- The `try` body of ModuleLoader.load_module: resolve the file, put the
module into sys.modules, and continue with `loadExecStep`.  An error value
is a raised exception together with the state at raise time. -/
def loadModuleTry (inst : Installer) (st : LoaderState) (file_path module_name : String)
    (is_system : Bool) : Except (PyExc × LoaderState) (Bool × LoaderState) :=
  match st.files.lookup file_path with
  | none => Except.ok (false, st)
  | some art =>
    loadExecStep inst
      { st with
        sys_modules := module_name :: st.sys_modules.filter (fun n => n != module_name) }
      file_path module_name is_system art

/-- ModuleLoader.load_module (core/module_loader.py): the `try` body wrapped
in the `except` clause, which logs the exception to the error sink with the
module name, message and formatted traceback, and returns False. -/
def load_module (inst : Installer) (st : LoaderState) (file_path module_name : String)
    (is_system : Bool) : Bool × LoaderState :=
  match loadModuleTry inst st file_path module_name is_system with
  | Except.ok r => r
  | Except.error (e, st1) =>
      (false, { st1 with
        error_logs := log_error st1.error_logs e.ty e.msg (some module_name) (some e.tb) })

/-- ModuleLoader.unload_module (core/module_loader.py): drop the catalog
entry and the sys.modules entry when present, else return False. -/
def unload_module (st : LoaderState) (module_name : String) : Bool × LoaderState :=
  if (st.loaded_modules.lookup module_name).isSome then
    (true, { st with
      loaded_modules := st.loaded_modules.filter (fun p => p.1 != module_name),
      sys_modules := st.sys_modules.filter (fun n => n != module_name) })
  else (false, st)

/-- ModuleLoader.reload_module (core/module_loader.py): require a registry
row, unload unconditionally (result ignored), then load from the stored
file_path with the stored is_system flag. -/
def reload_module (inst : Installer) (st : LoaderState) (module_name : String) :
    Bool × LoaderState :=
  match get_module st.modules_table module_name with
  | none => (false, st)
  | some record =>
      load_module inst (unload_module st module_name).2
        record.file_path module_name record.is_system

/-- modules/system/manager.py is_admin: configured principal or in the
admins table. -/
def is_admin (admin_id : Nat) (admins : List Nat) (user_id : Nat) : Bool :=
  user_id == admin_id || admins.contains user_id

/-- A Telegram document attachment, reduced to its file name. -/
structure Document where
  file_name : String
deriving DecidableEq

/-- The reply a manager.py handler sends back to the requesting actor. -/
inductive Answer where
  | notAdmin
  | replyToFile
  | invalidFile
  | conflictPrompt (name : String)
  | provideModuleName
  | moduleNotFound (name : String)
  | modulePredefined (name : String)
  | moduleDeleted (name : String)
  | moduleLoaded (name : String)
  | moduleUpdated (name : String)
  | moduleError (name : String)
  | canceled
deriving DecidableEq

/-- manager.py _load_module_from_file: write the downloaded artifact under
modules/user/, unload first when overwriting, then load_module. -/
def load_module_from_file (inst : Installer) (st : LoaderState) (content : Artifact)
    (module_name : String) (overwrite : Bool) : Answer × LoaderState :=
  let file_path := "modules/user/" ++ module_name ++ ".py"
  let st1 := { st with files := dictInsert file_path content st.files }
  let st2 := if overwrite then (unload_module st1 module_name).2 else st1
  let res := load_module inst st2 file_path module_name false
  if res.1 then
    (if overwrite then Answer.moduleUpdated module_name
     else Answer.moduleLoaded module_name, res.2)
  else (Answer.moduleError module_name, res.2)

/-- manager.py load_module_handler: admin check, document check, `.py`
check; a name collision with the catalog produces the overwrite proposal
prompt and returns with no side effect; otherwise download and load. -/
def load_module_handler (inst : Installer) (st : LoaderState) (actor : Nat)
    (replyDoc : Option Document) (download : Document → Artifact) :
    Answer × LoaderState :=
  if is_admin st.admin_id st.admins actor then
    match replyDoc with
    | none => (Answer.replyToFile, st)
    | some doc =>
      if doc.file_name.takeRight 3 == ".py" then
        let module_name := doc.file_name.dropRight 3
        if (st.loaded_modules.lookup module_name).isSome then
          (Answer.conflictPrompt module_name, st)
        else
          load_module_from_file inst st (download doc) module_name false
      else (Answer.invalidFile, st)
  else (Answer.notAdmin, st)

/-- manager.py cancel_load_callback: edit the prompt message; no lifecycle
state is touched. -/
def cancel_load_callback (st : LoaderState) : Answer × LoaderState :=
  (Answer.canceled, st)

/-- Final part of unload_module_handler: unlink the artifact file when it
exists, then report success. -/
def deleteFileStep (st : LoaderState) (module_name : String) (record : ModuleRow) :
    Answer × LoaderState :=
  if (st.files.lookup record.file_path).isSome then
    (Answer.moduleDeleted module_name,
      { st with files := st.files.filter (fun p => p.1 != record.file_path) })
  else (Answer.moduleDeleted module_name, st)

/-- Body of unload_module_handler once the record was fetched and found
deletable: unload (result ignored), delete the registry row (result
ignored), unlink the artifact file. -/
def deleteModuleStep (st : LoaderState) (module_name : String) (record : ModuleRow) :
    Answer × LoaderState :=
  deleteFileStep
    { (unload_module st module_name).2 with
      modules_table :=
        (delete_module (unload_module st module_name).2.dbOk
          (unload_module st module_name).2.modules_table module_name).2 }
    module_name record

/-- manager.py unload_module_handler (the Delete operation): admin check,
registry row must exist and not be a system module; then unload, delete the
registry row, and unlink the artifact file when it exists. -/
def unload_module_handler (st : LoaderState) (actor : Nat) (arg : Option String) :
    Answer × LoaderState :=
  if is_admin st.admin_id st.admins actor then
    match arg with
    | none => (Answer.provideModuleName, st)
    | some module_name =>
      match get_module st.modules_table module_name with
      | none => (Answer.moduleNotFound module_name, st)
      | some record =>
        if record.is_system then (Answer.modulePredefined module_name, st)
        else deleteModuleStep st module_name record
  else (Answer.notAdmin, st)

/-- The stderr an installer invocation reports when it fails (empty for a
successful invocation, which never produces a report). -/
def stderrOf : InstallOutcome → String
  | InstallOutcome.ok => ""
  | InstallOutcome.fail stderr => stderr

/-! Concrete data used by counterexample and witness theorems. -/

/-- A healthy baseline state: one extra admin, empty catalog, registry,
error sink and file system. -/
def baseState : LoaderState :=
  { loaded_modules := [], modules_table := [], error_logs := [], sys_modules := [],
    files := [], admins := [7], admin_id := 1, dbOk := true, now := 5, pip_calls := [] }

/-- An installer for which every invocation succeeds. -/
def instOk : Installer := fun _ _ => InstallOutcome.ok

/-- A plain descriptor as returned by a well-behaved module. -/
def infoGood : ModuleInfo :=
  { name := "m", description := "demo", commands := [("c", "run")],
    is_system := false, dependencies := [] }

/-- A well-behaved artifact: executes cleanly, has a register entrypoint,
declares no dependencies, returns `infoGood`. -/
def artGood : Artifact :=
  { execFault := none, hasRegister := true, dependencies := [],
    register := RegisterResult.ok infoGood }

/-- An artifact whose top-level code raises a ValueError. -/
def artFaulty : Artifact :=
  { execFault := some { ty := "ValueError", msg := "boom", tb := "Traceback: boom" },
    hasRegister := true, dependencies := [], register := RegisterResult.invalid }

/-- An artifact whose module-level DEPENDENCIES list is empty although the
descriptor its entrypoint returns declares one dependency. -/
def artDescDeps : Artifact :=
  { execFault := none, hasRegister := true, dependencies := [],
    register := RegisterResult.ok
      { name := "m", description := "", commands := [], is_system := false,
        dependencies := ["left-pad"] } }

/-- A state whose registry writes fault, holding a well-behaved artifact. -/
def stDbFault : LoaderState :=
  { baseState with dbOk := false, files := [("p", artGood)] }

/-- A state holding the faulting artifact. -/
def stFaulty : LoaderState := { baseState with files := [("p", artFaulty)] }

/-- `stFaulty` right after the module object was put into sys.modules. -/
def stFaultyRun : LoaderState := { stFaulty with sys_modules := ["m"] }

/-- A user-origin registry row pointing at the artifact file "p". -/
def rowUser : ModuleRow :=
  { name := "m", file_path := "p", is_system := false, is_active := true,
    added_at := 0, updated_at := 0 }

/-- A system-origin registry row. -/
def rowSys : ModuleRow :=
  { name := "s", file_path := "sp", is_system := true, is_active := true,
    added_at := 0, updated_at := 0 }

/-- A state with module "m" live and registered, its artifact on disk, and
faulting registry writes. -/
def stReload : LoaderState :=
  { baseState with
    dbOk := false, loaded_modules := [("m", infoGood)],
    modules_table := [rowUser], files := [("p", artGood)] }

/-- A state with module "m" live and registered but its artifact file gone. -/
def stArtifactGone : LoaderState :=
  { baseState with loaded_modules := [("m", infoGood)], modules_table := [rowUser] }

/-- A state with module "m" live, registered and its artifact on disk. -/
def stLive : LoaderState :=
  { baseState with
    loaded_modules := [("m", infoGood)], modules_table := [rowUser],
    files := [("p", artGood)] }

/-- A state with a system module "s" live and registered. -/
def stSys : LoaderState :=
  { baseState with
    loaded_modules := [("s", { infoGood with name := "s", is_system := true })],
    modules_table := [rowSys] }

/-- A state holding the artifact whose descriptor declares a dependency the
module-level DEPENDENCIES attribute does not. -/
def stDescDeps : LoaderState := { baseState with files := [("p", artDescDeps)] }

/-- An installer that fails on specifier "bad" with a diagnostic and
succeeds on everything else. -/
def instBad : Installer := fun dep _ =>
  if dep = "bad" then InstallOutcome.fail "no matching distribution" else InstallOutcome.ok

/-- An artifact declaring the module-level dependency "bad". -/
def artBadDeps : Artifact :=
  { execFault := none, hasRegister := true, dependencies := ["bad"],
    register := RegisterResult.ok infoGood }

/-- A state holding the artifact with the failing dependency. -/
def stBadDeps : LoaderState := { baseState with files := [("p", artBadDeps)] }

/-! Helper lemmas shared by the claim theorems. -/

/-- Looking up a key in an association list from which that key was
filtered out yields nothing. -/
theorem lookup_filter_key {β : Type} (k : String) (l : List (String × β)) :
    (l.filter (fun p => p.1 != k)).lookup k = none := by
  induction l with
  | nil => rfl
  | cons a t ih =>
    by_cases h : a.1 = k
    · simpa [List.filter_cons, h] using ih
    · have hk : (k == a.1) = false := beq_eq_false_iff_ne.mpr (Ne.symm h)
      simp [List.filter_cons, h, List.lookup, hk, ih]

/-- After unload_module, the name has no catalog entry. -/
theorem unload_lookup_none (st : LoaderState) (mn : String) :
    ((unload_module st mn).2.loaded_modules.lookup mn) = none := by
  unfold unload_module
  by_cases h : (st.loaded_modules.lookup mn).isSome
  · simp [h, lookup_filter_key]
  · simp only [h, Bool.false_eq_true, if_neg]
    exact Option.not_isSome_iff_eq_none.mp h

/-- When the register step returns normally with False, the state is the one
it was given (the catalog insert happens only on the success path). -/
theorem loadRegisterStep_ok_false (st : LoaderState) (fp mn : String) (b : Bool)
    (art : Artifact) (r : Bool × LoaderState)
    (h : loadRegisterStep st fp mn b art = Except.ok r) (hr : r.1 = false) :
    r.2 = st := by
  unfold loadRegisterStep at h
  split at h
  · exact absurd h (by simp)
  · cases h; rfl
  · split at h
    · cases h; simp at hr
    · exact absurd h (by simp)

/-- When the register step raises, the modules table is unchanged: the raise
is either the entrypoint's own fault (before any write) or the registry
write itself failing (before any table mutation). -/
theorem loadRegisterStep_error_registry (st : LoaderState) (fp mn : String) (b : Bool)
    (art : Artifact) (e : PyExc) (st1 : LoaderState)
    (h : loadRegisterStep st fp mn b art = Except.error (e, st1)) :
    st1.modules_table = st.modules_table ∧ st1.error_logs = st.error_logs := by
  unfold loadRegisterStep at h
  split at h
  · cases h; exact ⟨rfl, rfl⟩
  · exact absurd h (by simp)
  · split at h
    · exact absurd h (by simp)
    · cases h; exact ⟨rfl, rfl⟩

/-- When the register step raises and the storage is healthy, the catalog is
unchanged: with `dbOk = true` the registry write cannot raise, so the raise
happened before the catalog insert. -/
theorem loadRegisterStep_error_catalog (st : LoaderState) (fp mn : String) (b : Bool)
    (art : Artifact) (e : PyExc) (st1 : LoaderState)
    (h : loadRegisterStep st fp mn b art = Except.error (e, st1))
    (hdb : st.dbOk = true) :
    st1.loaded_modules = st.loaded_modules := by
  unfold loadRegisterStep at h
  split at h
  · cases h; rfl
  · exact absurd h (by simp)
  · rename_i info
    split at h
    · exact absurd h (by simp)
    · rename_i e' herr
      exfalso
      rw [add_module, if_pos hdb] at herr
      split at herr <;> simp at herr

/-- A normal False return of the dependency step leaves catalog, registry
and error sink as they were. -/
theorem loadDepsStep_ok_false (inst : Installer) (st : LoaderState) (fp mn : String)
    (b : Bool) (art : Artifact) (r : Bool × LoaderState)
    (h : loadDepsStep inst st fp mn b art = Except.ok r) (hr : r.1 = false) :
    r.2.loaded_modules = st.loaded_modules ∧ r.2.modules_table = st.modules_table ∧
      r.2.error_logs = st.error_logs := by
  unfold loadDepsStep at h
  split at h
  · have := loadRegisterStep_ok_false _ _ _ _ _ _ h hr
    rw [this]; exact ⟨rfl, rfl, rfl⟩
  · cases h; exact ⟨rfl, rfl, rfl⟩

/-- A normal False return of the exec step leaves catalog, registry and
error sink as they were. -/
theorem loadExecStep_ok_false (inst : Installer) (st : LoaderState) (fp mn : String)
    (b : Bool) (art : Artifact) (r : Bool × LoaderState)
    (h : loadExecStep inst st fp mn b art = Except.ok r) (hr : r.1 = false) :
    r.2.loaded_modules = st.loaded_modules ∧ r.2.modules_table = st.modules_table ∧
      r.2.error_logs = st.error_logs := by
  unfold loadExecStep at h
  split at h
  · exact absurd h (by simp)
  · split at h
    · split at h
      · have := loadRegisterStep_ok_false _ _ _ _ _ _ h hr
        rw [this]; exact ⟨rfl, rfl, rfl⟩
      · exact loadDepsStep_ok_false _ _ _ _ _ _ _ h hr
    · cases h; exact ⟨rfl, rfl, rfl⟩

/-- A raise inside the exec step never mutates the modules table or the
error sink. -/
theorem loadExecStep_error_registry (inst : Installer) (st : LoaderState) (fp mn : String)
    (b : Bool) (art : Artifact) (e : PyExc) (st1 : LoaderState)
    (h : loadExecStep inst st fp mn b art = Except.error (e, st1)) :
    st1.modules_table = st.modules_table ∧ st1.error_logs = st.error_logs := by
  unfold loadExecStep at h
  split at h
  · cases h; exact ⟨rfl, rfl⟩
  · split at h
    · split at h
      · exact loadRegisterStep_error_registry _ _ _ _ _ _ _ h
      · unfold loadDepsStep at h
        split at h
        · have := loadRegisterStep_error_registry _ _ _ _ _ _ _ h
          exact this
        · exact absurd h (by simp)
    · exact absurd h (by simp)

/-- With healthy storage, a raise inside the exec step never mutates the
catalog either. -/
theorem loadExecStep_error_catalog (inst : Installer) (st : LoaderState) (fp mn : String)
    (b : Bool) (art : Artifact) (e : PyExc) (st1 : LoaderState)
    (h : loadExecStep inst st fp mn b art = Except.error (e, st1))
    (hdb : st.dbOk = true) :
    st1.loaded_modules = st.loaded_modules := by
  unfold loadExecStep at h
  split at h
  · cases h; rfl
  · split at h
    · split at h
      · exact loadRegisterStep_error_catalog _ _ _ _ _ _ _ h hdb
      · unfold loadDepsStep at h
        split at h
        · have := loadRegisterStep_error_catalog _ _ _ _ _ _ _ h hdb
          exact this
        · exact absurd h (by simp)
    · exact absurd h (by simp)

/-- A normal False return of the try body leaves catalog, registry and
error sink as they were (only sys.modules and the pip-call trace grow). -/
theorem loadModuleTry_ok_false (inst : Installer) (st : LoaderState) (fp mn : String)
    (b : Bool) (r : Bool × LoaderState)
    (h : loadModuleTry inst st fp mn b = Except.ok r) (hr : r.1 = false) :
    r.2.loaded_modules = st.loaded_modules ∧ r.2.modules_table = st.modules_table ∧
      r.2.error_logs = st.error_logs := by
  unfold loadModuleTry at h
  split at h
  · cases h; exact ⟨rfl, rfl, rfl⟩
  · have := loadExecStep_ok_false _ _ _ _ _ _ _ h hr
    exact this

/-- A raise inside the try body never mutates the modules table or the
error sink. -/
theorem loadModuleTry_error_registry (inst : Installer) (st : LoaderState) (fp mn : String)
    (b : Bool) (e : PyExc) (st1 : LoaderState)
    (h : loadModuleTry inst st fp mn b = Except.error (e, st1)) :
    st1.modules_table = st.modules_table ∧ st1.error_logs = st.error_logs := by
  unfold loadModuleTry at h
  split at h
  · exact absurd h (by simp)
  · have := loadExecStep_error_registry _ _ _ _ _ _ _ _ h
    exact this

/-- With healthy storage, a raise inside the try body never mutates the
catalog either. -/
theorem loadModuleTry_error_catalog (inst : Installer) (st : LoaderState) (fp mn : String)
    (b : Bool) (e : PyExc) (st1 : LoaderState)
    (h : loadModuleTry inst st fp mn b = Except.error (e, st1))
    (hdb : st.dbOk = true) :
    st1.loaded_modules = st.loaded_modules := by
  unfold loadModuleTry at h
  split at h
  · exact absurd h (by simp)
  · have := loadExecStep_error_catalog _ _ _ _ _ _ _ _ h hdb
    exact this

/-- unload_module never touches the registry, the error sink, the files,
the admin data, the storage-health flag, the clock or the pip trace. -/
theorem unload_module_frame (st : LoaderState) (mn : String) :
    (unload_module st mn).2.modules_table = st.modules_table ∧
      (unload_module st mn).2.error_logs = st.error_logs ∧
      (unload_module st mn).2.files = st.files ∧
      (unload_module st mn).2.dbOk = st.dbOk ∧
      (unload_module st mn).2.pip_calls = st.pip_calls := by
  unfold unload_module
  split <;> exact ⟨rfl, rfl, rfl, rfl, rfl⟩

/-- unload_module on a name with no catalog entry returns False and leaves
the whole state untouched. -/
theorem unload_not_loaded (st : LoaderState) (mn : String)
    (h : st.loaded_modules.lookup mn = none) : unload_module st mn = (false, st) := by
  unfold unload_module
  rw [h]
  rfl

/-- A failed load leaves the modules table unchanged (the registry write is
all-or-nothing: it either succeeds or raises before mutating the table). -/
theorem load_module_fail_registry (inst : Installer) (st : LoaderState) (fp mn : String)
    (b : Bool) (hfail : (load_module inst st fp mn b).1 = false) :
    (load_module inst st fp mn b).2.modules_table = st.modules_table := by
  cases h : loadModuleTry inst st fp mn b with
  | ok r =>
      have heq : load_module inst st fp mn b = r := by
        unfold load_module
        rw [h]
      rw [heq] at hfail
      rw [heq]
      exact (loadModuleTry_ok_false inst st fp mn b r h hfail).2.1
  | error p =>
      obtain ⟨e, st1⟩ := p
      have heq : load_module inst st fp mn b =
          (false, { st1 with
            error_logs := log_error st1.error_logs e.ty e.msg (some mn) (some e.tb) }) := by
        unfold load_module
        rw [h]
      rw [heq]
      exact (loadModuleTry_error_registry inst st fp mn b e st1 h).1

/-- With healthy storage, a failed load leaves the catalog unchanged. -/
theorem load_module_fail_catalog (inst : Installer) (st : LoaderState) (fp mn : String)
    (b : Bool) (hdb : st.dbOk = true)
    (hfail : (load_module inst st fp mn b).1 = false) :
    (load_module inst st fp mn b).2.loaded_modules = st.loaded_modules := by
  cases h : loadModuleTry inst st fp mn b with
  | ok r =>
      have heq : load_module inst st fp mn b = r := by
        unfold load_module
        rw [h]
      rw [heq] at hfail
      rw [heq]
      exact (loadModuleTry_ok_false inst st fp mn b r h hfail).1
  | error p =>
      obtain ⟨e, st1⟩ := p
      have heq : load_module inst st fp mn b =
          (false, { st1 with
            error_logs := log_error st1.error_logs e.ty e.msg (some mn) (some e.tb) }) := by
        unfold load_module
        rw [h]
      rw [heq]
      exact loadModuleTry_error_catalog inst st fp mn b e st1 h hdb

/-- The exec step returns False normally on each of the three local failure
shapes: missing entrypoint, failed dependency install, malformed descriptor. -/
theorem loadExecStep_false_cases (inst : Installer) (st : LoaderState) (fp mn : String)
    (b : Bool) (art : Artifact) (hx : art.execFault = none)
    (hcase : art.hasRegister = false ∨
      (install_dependencies inst art.dependencies).success = false ∨
      art.register = RegisterResult.invalid) :
    ∃ st2, loadExecStep inst st fp mn b art = Except.ok (false, st2) := by
  unfold loadExecStep
  rw [hx]
  by_cases hreg : art.hasRegister = true
  · rw [if_pos hreg]
    by_cases hemp : art.dependencies.isEmpty = true
    · rw [if_pos hemp]
      rcases hcase with h1 | h2 | h3
      · rw [h1] at hreg; exact absurd hreg (by simp)
      · exfalso
        have hnil : art.dependencies = [] := by simpa using hemp
        rw [hnil] at h2
        simp [install_dependencies] at h2
      · unfold loadRegisterStep
        rw [h3]
        exact ⟨st, rfl⟩
    · rw [if_neg hemp]
      unfold loadDepsStep
      by_cases hs : (install_dependencies inst art.dependencies).success = true
      · rw [if_pos hs]
        rcases hcase with h1 | h2 | h3
        · rw [h1] at hreg; exact absurd hreg (by simp)
        · rw [h2] at hs; exact absurd hs (by simp)
        · unfold loadRegisterStep
          rw [h3]
          exact ⟨_, rfl⟩
      · rw [if_neg hs]
        exact ⟨_, rfl⟩
  · rw [if_neg hreg]
    exact ⟨st, rfl⟩

/-- The register step never changes the pip-call trace. -/
theorem loadRegisterStep_pip (st : LoaderState) (fp mn : String) (b : Bool)
    (art : Artifact) :
    (∀ r, loadRegisterStep st fp mn b art = Except.ok r → r.2.pip_calls = st.pip_calls) ∧
      (∀ e st1, loadRegisterStep st fp mn b art = Except.error (e, st1) →
        st1.pip_calls = st.pip_calls) := by
  constructor
  · intro r h
    unfold loadRegisterStep at h
    split at h
    · exact absurd h (by simp)
    · cases h; rfl
    · split at h
      · cases h; rfl
      · exact absurd h (by simp)
  · intro e st1 h
    unfold loadRegisterStep at h
    split at h
    · cases h; rfl
    · exact absurd h (by simp)
    · split at h
      · exact absurd h (by simp)
      · cases h; rfl

/-- Deleting a row filters it out of the table: looking the name up again
finds nothing. -/
theorem get_module_filter_none (db : List ModuleRow) (name : String) :
    get_module (db.filter (fun r => r.name != name)) name = none := by
  unfold get_module
  induction db with
  | nil => rfl
  | cons a t ih =>
    by_cases h : a.name = name
    · rw [List.filter_cons]
      simp only [h, bne_self_eq_false, Bool.false_eq_true, if_neg]
      exact ih
    · have hk : (a.name == name) = false := beq_eq_false_iff_ne.mpr h
      simp [List.filter_cons, h, List.find?, hk, ih]

/-! Claim theorems. -/

/-- C1 counterexample: in a state whose registry write faults, loading a
well-behaved artifact fails (load_module returns False), yet the catalog has
been mutated — the entry inserted just before the registry write survives
the failure, so "no partial mutation of either" is violated. -/
theorem c1_counterexample :
    (load_module instOk stDbFault "p" "m" false).1 = false ∧
      (load_module instOk stDbFault "p" "m" false).2.loaded_modules ≠
        stDbFault.loaded_modules := by
  decide

/-- C1 (amended): a failed load leaves the Registry (modules table) exactly
as it was, and, provided the registry write did not fault (`dbOk = true`),
leaves the Catalog exactly as it was too.  Only the registry-write fault —
the spec's `RegistryError` — can leave a partial Catalog mutation behind. -/
theorem c1_failed_load_no_partial_mutation (inst : Installer) (st : LoaderState)
    (fp mn : String) (b : Bool)
    (hfail : (load_module inst st fp mn b).1 = false) :
    (load_module inst st fp mn b).2.modules_table = st.modules_table ∧
      (st.dbOk = true →
        (load_module inst st fp mn b).2.loaded_modules = st.loaded_modules) := by
  exact ⟨load_module_fail_registry inst st fp mn b hfail,
    fun hdb => load_module_fail_catalog inst st fp mn b hdb hfail⟩

/-- C1 witness: a load that fails because the artifact is absent leaves
both the modules table and the catalog of the base state unchanged. -/
theorem c1_witness :
    (load_module instOk baseState "q" "m" false).2.modules_table =
        baseState.modules_table ∧
      (load_module instOk baseState "q" "m" false).2.loaded_modules =
        baseState.loaded_modules := by
  have h := c1_failed_load_no_partial_mutation instOk baseState "q" "m" false (by decide)
  exact ⟨h.1, h.2 (by decide)⟩

/-- C2 (confirmed): whatever fault the try body of load_module raises — a
fault in the module's own code during execution or registration, or the
registry write raising — load_module catches it at the load boundary,
appends exactly one Error Sink record carrying the module name, the fault's
type and message, and the formatted traceback, and returns False to the
caller; being a total function, it never propagates the fault. -/
theorem c2_fault_contained (inst : Installer) (st : LoaderState) (fp mn : String)
    (b : Bool) (e : PyExc) (st1 : LoaderState)
    (h : loadModuleTry inst st fp mn b = Except.error (e, st1)) :
    load_module inst st fp mn b =
      (false, { st1 with
        error_logs := st1.error_logs ++
          [{ module_name := some mn, error_type := e.ty,
             error_message := e.msg, traceback := some e.tb }] }) ∧
      st1.error_logs = st.error_logs := by
  constructor
  · unfold load_module
    rw [h]
    rfl
  · exact (loadModuleTry_error_registry inst st fp mn b e st1 h).2

/-- C2 witness: loading the artifact whose top-level code raises ValueError
returns False and appends the corresponding Error Sink record. -/
theorem c2_witness :
    load_module instOk stFaulty "p" "m" false =
      (false, { stFaultyRun with
        error_logs := [{ module_name := some "m", error_type := "ValueError",
                         error_message := "boom", traceback := some "Traceback: boom" }] }) := by
  have h : loadModuleTry instOk stFaulty "p" "m" false =
      Except.error ({ ty := "ValueError", msg := "boom", tb := "Traceback: boom" },
        stFaultyRun) := by
    rfl
  exact (c2_fault_contained instOk stFaulty "p" "m" false _ _ h).1

/-- C3 counterexample: an ArtifactNotFound failure (the file is absent) is
reported to the caller (load_module returns False) but no record is written
to the Error Sink, contradicting "reported to the caller plus logged". -/
theorem c3_counterexample :
    baseState.files.lookup "p" = none ∧
      (load_module instOk baseState "p" "m" false).1 = false ∧
      (load_module instOk baseState "p" "m" false).2.error_logs = [] := by
  decide

/-- C3 (amended): the local failure kinds all return a failure result to
the caller, but only ExecutionFault reaches the Error Sink; a load that
fails as ArtifactNotFound (file absent), InvalidModuleSchema (no register
entrypoint or malformed descriptor) or ProvisionError (installer failure)
returns False with the Error Sink unchanged. -/
theorem c3_local_failures_not_logged (inst : Installer) (st : LoaderState)
    (fp mn : String) (b : Bool)
    (h : st.files.lookup fp = none ∨
      ∃ art, st.files.lookup fp = some art ∧ art.execFault = none ∧
        (art.hasRegister = false ∨
          (install_dependencies inst art.dependencies).success = false ∨
          art.register = RegisterResult.invalid)) :
    (load_module inst st fp mn b).1 = false ∧
      (load_module inst st fp mn b).2.error_logs = st.error_logs := by
  have hex : ∃ st2, loadModuleTry inst st fp mn b = Except.ok (false, st2) := by
    rcases h with hnone | ⟨art, hart, hx, hcase⟩
    · refine ⟨st, ?_⟩
      unfold loadModuleTry
      rw [hnone]
    · obtain ⟨st2, hst2⟩ := loadExecStep_false_cases inst
        { st with sys_modules := mn :: st.sys_modules.filter (fun n => n != mn) }
        fp mn b art hx hcase
      refine ⟨st2, ?_⟩
      unfold loadModuleTry
      rw [hart]
      exact hst2
  obtain ⟨st2, hok⟩ := hex
  have hframe := loadModuleTry_ok_false inst st fp mn b (false, st2) hok rfl
  have heq : load_module inst st fp mn b = (false, st2) := by
    unfold load_module
    rw [hok]
  rw [heq]
  exact ⟨rfl, hframe.2.2⟩

/-- C3 witness: a load failing on a missing register entrypoint returns
False and leaves the Error Sink of the base state unchanged. -/
theorem c3_witness :
    (load_module instOk
        { baseState with files := [("p",
          { execFault := none, hasRegister := false, dependencies := [],
            register := RegisterResult.invalid })] } "p" "m" false).1 = false ∧
      (load_module instOk
        { baseState with files := [("p",
          { execFault := none, hasRegister := false, dependencies := [],
            register := RegisterResult.invalid })] } "p" "m" false).2.error_logs =
        baseState.error_logs := by
  exact c3_local_failures_not_logged instOk _ "p" "m" false
    (Or.inr ⟨_, rfl, rfl, Or.inl rfl⟩)

/-- C4 counterexample: reloading "m" in a state whose registry write faults
makes the replacement load fail, yet "m" is still present in the Catalog
afterwards — the claim that a failed replacement load always leaves the name
absent from the Catalog is false. -/
theorem c4_counterexample :
    (reload_module instOk stReload "m").1 = false ∧
      ((reload_module instOk stReload "m").2.loaded_modules.lookup "m").isSome = true := by
  decide

/-- C4 (amended): Reload returns False untouched when no registry record
exists; otherwise it unconditionally unloads and then loads from the
record's stored file_path with its stored is_system flag; and whenever that
replacement load fails for any reason other than a registry-write fault
(`dbOk = true`), the name is absent from the Catalog afterwards — the
previous version is not restored. -/
theorem c4_reload_contract (inst : Installer) (st : LoaderState) (mn : String) :
    (get_module st.modules_table mn = none → reload_module inst st mn = (false, st)) ∧
      ∀ record, get_module st.modules_table mn = some record →
        reload_module inst st mn =
          load_module inst (unload_module st mn).2 record.file_path mn record.is_system ∧
        (st.dbOk = true → (reload_module inst st mn).1 = false →
          ((reload_module inst st mn).2.loaded_modules.lookup mn) = none) := by
  constructor
  · intro h
    unfold reload_module
    rw [h]
  · intro record hrec
    have heq : reload_module inst st mn =
        load_module inst (unload_module st mn).2 record.file_path mn record.is_system := by
      unfold reload_module
      rw [hrec]
    refine ⟨heq, ?_⟩
    intro hdb hfail
    rw [heq] at hfail ⊢
    have hdb1 : (unload_module st mn).2.dbOk = true := by
      rw [(unload_module_frame st mn).2.2.2.1]
      exact hdb
    rw [load_module_fail_catalog inst (unload_module st mn).2 record.file_path mn
      record.is_system hdb1 hfail]
    exact unload_lookup_none st mn

/-- C4 witness: with a record present but the artifact file gone, reload
unloads "m", the replacement load fails, and "m" is absent from the Catalog. -/
theorem c4_witness :
    reload_module instOk stArtifactGone "m" =
        load_module instOk (unload_module stArtifactGone "m").2 "p" "m" false ∧
      ((reload_module instOk stArtifactGone "m").2.loaded_modules.lookup "m") = none := by
  have h := (c4_reload_contract instOk stArtifactGone "m").2 rowUser (by decide)
  exact ⟨h.1, h.2 (by decide) (by decide)⟩

/-- C9 (confirmed): Unload on a name with no Catalog entry returns False
and leaves the whole state — Catalog, Registry, artifact storage and all —
untouched; and a second Unload immediately after any Unload returns False
without changing anything, because the first call removed the entry if it
was there. -/
theorem c9_unload_idempotent (st : LoaderState) (mn : String) :
    (st.loaded_modules.lookup mn = none → unload_module st mn = (false, st)) ∧
      unload_module (unload_module st mn).2 mn = (false, (unload_module st mn).2) := by
  exact ⟨unload_not_loaded st mn,
    unload_not_loaded (unload_module st mn).2 mn (unload_lookup_none st mn)⟩

/-- C9 witness: unloading "x" from the base state (never loaded) returns
False with the state unchanged, and a second unload of "m" right after the
first returns False with the state unchanged. -/
theorem c9_witness :
    unload_module baseState "x" = (false, baseState) ∧
      unload_module (unload_module stLive "m").2 "m" =
        (false, (unload_module stLive "m").2) := by
  exact ⟨(c9_unload_idempotent baseState "x").1 (by decide),
    (c9_unload_idempotent stLive "m").2⟩

/-- C7 (confirmed): for every installer behaviour and every ordered
dependency list, the invocations made are exactly the successful prefix of
the list followed by the first failing specifier (if any), in list order,
each with the per-item timeout bound 300 — so installation stops at the
first failure, later specifiers are never attempted, and the invocations
already made are never revisited (no rollback); the returned success flag
is true exactly when every specifier succeeded, and on failure the logged
report names the first failing specifier together with the installer's
stderr output. -/
theorem c7_install_contract (inst : Installer) (deps : List String) :
    (install_dependencies inst deps).calls =
      ((deps.takeWhile fun d => decide (inst d 300 = InstallOutcome.ok)) ++
        (deps.dropWhile fun d => decide (inst d 300 = InstallOutcome.ok)).take 1).map
        (fun d => (d, 300)) ∧
      (install_dependencies inst deps).success =
        (deps.dropWhile fun d => decide (inst d 300 = InstallOutcome.ok)).isEmpty ∧
      (install_dependencies inst deps).failed =
        ((deps.dropWhile fun d => decide (inst d 300 = InstallOutcome.ok)).head?).map
          (fun d => (d, stderrOf (inst d 300))) := by
  induction deps with
  | nil => exact ⟨rfl, rfl, rfl⟩
  | cons d rest ih =>
    cases hd : inst d 300 with
    | ok =>
        refine ⟨?_, ?_, ?_⟩
        · simp [install_dependencies, List.takeWhile_cons, List.dropWhile_cons, hd, ih.1]
        · simp [install_dependencies, List.dropWhile_cons, hd, ih.2.1]
        · simp [install_dependencies, List.dropWhile_cons, hd, ih.2.2]
    | fail stderr =>
        refine ⟨?_, ?_, ?_⟩
        · simp [install_dependencies, List.takeWhile_cons, List.dropWhile_cons, hd]
        · simp [install_dependencies, List.dropWhile_cons, hd]
        · simp [install_dependencies, List.dropWhile_cons, hd, stderrOf]

/-- load_module is the exception wrapper around the exec step at the state
with the module put into sys.modules. -/
theorem load_module_eq_exec (inst : Installer) (st : LoaderState) (fp mn : String)
    (b : Bool) (art : Artifact) (hf : st.files.lookup fp = some art) :
    load_module inst st fp mn b =
      match loadExecStep inst
          { st with sys_modules := mn :: st.sys_modules.filter (fun n => n != mn) }
          fp mn b art with
      | Except.ok r => r
      | Except.error (e, st1) =>
          (false, { st1 with
            error_logs := log_error st1.error_logs e.ty e.msg (some mn) (some e.tb) }) := by
  unfold load_module loadModuleTry
  rw [hf]

/-- Through the exec step (module executes cleanly, entrypoint present) the
pip-call trace grows by exactly the installer invocations, and by nothing
when the DEPENDENCIES list is empty — whatever the later steps do. -/
theorem loadExecStep_pip (inst : Installer) (st : LoaderState) (fp mn : String)
    (b : Bool) (art : Artifact) (hx : art.execFault = none)
    (hr : art.hasRegister = true) :
    (∀ r, loadExecStep inst st fp mn b art = Except.ok r →
        r.2.pip_calls = st.pip_calls ++
          (if art.dependencies.isEmpty then []
           else (install_dependencies inst art.dependencies).calls)) ∧
      (∀ e st1, loadExecStep inst st fp mn b art = Except.error (e, st1) →
        st1.pip_calls = st.pip_calls ++
          (if art.dependencies.isEmpty then []
           else (install_dependencies inst art.dependencies).calls)) := by
  unfold loadExecStep
  rw [hx, if_pos hr]
  by_cases hemp : art.dependencies.isEmpty = true
  · rw [if_pos hemp]
    constructor
    · intro r h
      rw [(loadRegisterStep_pip st fp mn b art).1 r h, if_pos hemp, List.append_nil]
    · intro e st1 h
      rw [(loadRegisterStep_pip st fp mn b art).2 e st1 h, if_pos hemp, List.append_nil]
  · rw [if_neg hemp]
    unfold loadDepsStep
    by_cases hs : (install_dependencies inst art.dependencies).success = true
    · rw [if_pos hs]
      constructor
      · intro r h
        have := (loadRegisterStep_pip _ fp mn b art).1 r h
        rw [this, if_neg hemp]
      · intro e st1 h
        have := (loadRegisterStep_pip _ fp mn b art).2 e st1 h
        rw [this, if_neg hemp]
    · rw [if_neg hs]
      constructor
      · intro r h
        cases h
        rw [if_neg hemp]
      · intro e st1 h
        exact absurd h (by simp)

/-- C8 counterexample: loading the artifact whose module-level DEPENDENCIES
list is empty but whose entrypoint returns a descriptor declaring the
dependency "left-pad" succeeds without a single installer invocation — the
Provisioner is driven by the module attribute, not by the descriptor, so
"invoked exactly when the descriptor declares a non-empty dependencies
list" is false. -/
theorem c8_counterexample :
    (load_module instOk stDescDeps "p" "m" false).1 = true ∧
      (load_module instOk stDescDeps "p" "m" false).2.pip_calls = [] ∧
      ((load_module instOk stDescDeps "p" "m" false).2.loaded_modules.lookup "m").map
        ModuleInfo.dependencies = some ["left-pad"] := by
  decide

/-- C8 (amended): for an artifact that executes cleanly and has a register
entrypoint, the Provisioner is invoked exactly when the module-level
DEPENDENCIES list is non-empty — the pip-call trace grows by precisely the
installer invocations, and stays unchanged when that list is empty,
regardless of what the descriptor later declares; and when provisioning
fails the load aborts with a failure result before the module is treated as
active: catalog, registry and error sink are all left unchanged. -/
theorem c8_provision_condition (inst : Installer) (st : LoaderState) (fp mn : String)
    (b : Bool) (art : Artifact) (hf : st.files.lookup fp = some art)
    (hx : art.execFault = none) (hr : art.hasRegister = true) :
    ((load_module inst st fp mn b).2.pip_calls =
        st.pip_calls ++
          (if art.dependencies.isEmpty then []
           else (install_dependencies inst art.dependencies).calls)) ∧
      ((install_dependencies inst art.dependencies).success = false →
        (load_module inst st fp mn b).1 = false ∧
          (load_module inst st fp mn b).2.loaded_modules = st.loaded_modules ∧
          (load_module inst st fp mn b).2.modules_table = st.modules_table ∧
          (load_module inst st fp mn b).2.error_logs = st.error_logs) := by
  have hload := load_module_eq_exec inst st fp mn b art hf
  constructor
  · rw [hload]
    cases hs : loadExecStep inst
        { st with sys_modules := mn :: st.sys_modules.filter (fun n => n != mn) }
        fp mn b art with
    | ok r =>
        have := (loadExecStep_pip inst _ fp mn b art hx hr).1 r hs
        exact this
    | error p =>
        obtain ⟨e, st1⟩ := p
        have := (loadExecStep_pip inst _ fp mn b art hx hr).2 e st1 hs
        exact this
  · intro hfailinst
    obtain ⟨st2, hst2⟩ := loadExecStep_false_cases inst
      { st with sys_modules := mn :: st.sys_modules.filter (fun n => n != mn) }
      fp mn b art hx (Or.inr (Or.inl hfailinst))
    have htry : loadModuleTry inst st fp mn b = Except.ok (false, st2) := by
      unfold loadModuleTry
      rw [hf]
      exact hst2
    have heq : load_module inst st fp mn b = (false, st2) := by
      unfold load_module
      rw [htry]
    have hframe := loadModuleTry_ok_false inst st fp mn b (false, st2) htry rfl
    rw [heq]
    exact ⟨rfl, hframe.1, hframe.2.1, hframe.2.2⟩

/-- C8 witness: loading the artifact with module-level dependency "bad"
under the failing installer invokes the Provisioner (one recorded pip call)
and aborts the load with catalog, registry and error sink unchanged. -/
theorem c8_witness :
    (load_module instBad stBadDeps "p" "m" false).2.pip_calls =
        stBadDeps.pip_calls ++ (install_dependencies instBad ["bad"]).calls ∧
      (load_module instBad stBadDeps "p" "m" false).1 = false ∧
      (load_module instBad stBadDeps "p" "m" false).2.loaded_modules =
        stBadDeps.loaded_modules := by
  have h := c8_provision_condition instBad stBadDeps "p" "m" false artBadDeps
    (by decide) (by decide) (by decide)
  have h2 := h.2 (by decide)
  exact ⟨h.1, h2.1, h2.2.1⟩

/-- The file-unlink step always reports deletion, never touches the modules
table, and afterwards the record's artifact path resolves to nothing. -/
theorem deleteFileStep_spec (st : LoaderState) (mn : String) (record : ModuleRow) :
    (deleteFileStep st mn record).1 = Answer.moduleDeleted mn ∧
      (deleteFileStep st mn record).2.modules_table = st.modules_table ∧
      (deleteFileStep st mn record).2.files.lookup record.file_path = none := by
  unfold deleteFileStep
  by_cases h : (st.files.lookup record.file_path).isSome = true
  · rw [if_pos h]
    exact ⟨rfl, rfl, lookup_filter_key _ _⟩
  · rw [if_neg h]
    exact ⟨rfl, rfl, Option.not_isSome_iff_eq_none.mp h⟩

/-- C5 (confirmed): when the registry record is absent or has system
origin, the Delete operation reports anything but success and leaves the
whole state untouched, regardless of the requesting actor; when an
authorized actor deletes an existing user-origin record (with healthy
storage), the operation reports success, the registry record is gone and
the artifact file is gone. -/
theorem c5_delete_contract (st : LoaderState) (actor : Nat) (mn : String) :
    ((get_module st.modules_table mn = none ∨
        ∃ record, get_module st.modules_table mn = some record ∧ record.is_system = true) →
      (unload_module_handler st actor (some mn)).1 ≠ Answer.moduleDeleted mn ∧
        (unload_module_handler st actor (some mn)).2 = st) ∧
      ∀ record, get_module st.modules_table mn = some record → record.is_system = false →
        is_admin st.admin_id st.admins actor = true → st.dbOk = true →
        (unload_module_handler st actor (some mn)).1 = Answer.moduleDeleted mn ∧
          get_module (unload_module_handler st actor (some mn)).2.modules_table mn = none ∧
          (unload_module_handler st actor (some mn)).2.files.lookup record.file_path = none := by
  constructor
  · intro h
    by_cases hadm : is_admin st.admin_id st.admins actor = true
    · rcases h with hnone | ⟨record, hrec, hsys⟩
      · have heq : unload_module_handler st actor (some mn) = (Answer.moduleNotFound mn, st) := by
          simp only [unload_module_handler, hadm, hnone, if_true]
        rw [heq]
        exact ⟨fun hc => Answer.noConfusion hc, rfl⟩
      · have heq : unload_module_handler st actor (some mn) = (Answer.modulePredefined mn, st) := by
          simp only [unload_module_handler, hadm, hrec, hsys, if_true]
        rw [heq]
        exact ⟨fun hc => Answer.noConfusion hc, rfl⟩
    · have heq : unload_module_handler st actor (some mn) = (Answer.notAdmin, st) := by
        unfold unload_module_handler
        rw [if_neg hadm]
      rw [heq]
      exact ⟨fun hc => Answer.noConfusion hc, rfl⟩
  · intro record hrec hsys hadm hdb
    have hframe := unload_module_frame st mn
    have heq : unload_module_handler st actor (some mn) = deleteModuleStep st mn record := by
      simp only [unload_module_handler, hadm, hrec, hsys, if_true, Bool.false_eq_true,
        if_false]
    have hdel : delete_module (unload_module st mn).2.dbOk
        (unload_module st mn).2.modules_table mn =
        (true, st.modules_table.filter (fun r => r.name != mn)) := by
      rw [hframe.2.2.2.1, hframe.1, hdb]
      unfold delete_module
      rw [hrec]
      simp [hsys]
    have hstep : deleteModuleStep st mn record =
        deleteFileStep { (unload_module st mn).2 with
          modules_table := st.modules_table.filter (fun r => r.name != mn) } mn record := by
      unfold deleteModuleStep
      rw [hdel]
    rw [heq, hstep]
    have hspec := deleteFileStep_spec
      { (unload_module st mn).2 with
        modules_table := st.modules_table.filter (fun r => r.name != mn) } mn record
    refine ⟨hspec.1, ?_, hspec.2.2⟩
    rw [hspec.2.1]
    exact get_module_filter_none st.modules_table mn

/-- C5 witness: deleting the system module "s" changes nothing and is not
reported as a deletion; deleting the live user module "m" as the configured
principal reports success, removes the registry row and unlinks the file. -/
theorem c5_witness :
    (unload_module_handler stSys 1 (some "s")).1 ≠ Answer.moduleDeleted "s" ∧
      (unload_module_handler stSys 1 (some "s")).2 = stSys ∧
      (unload_module_handler stLive 1 (some "m")).1 = Answer.moduleDeleted "m" ∧
      get_module (unload_module_handler stLive 1 (some "m")).2.modules_table "m" = none ∧
      (unload_module_handler stLive 1 (some "m")).2.files.lookup "p" = none := by
  have hA := (c5_delete_contract stSys 1 "s").1 (Or.inr ⟨rowSys, by decide, by decide⟩)
  have hB := (c5_delete_contract stLive 1 "m").2 rowUser
    (by decide) (by decide) (by decide) (by decide)
  exact ⟨hA.1, hA.2, hB.1, hB.2.1, hB.2.2⟩

/-- C6 (confirmed): when an authorized actor proposes loading a `.py`
artifact whose name already has a Catalog entry, the handler answers with
the overwrite-confirmation prompt and the state — Catalog, Registry,
artifact storage and all — is returned untouched; cancelling afterwards
also returns the state untouched. -/
theorem c6_propose_cancel (inst : Installer) (st : LoaderState) (actor : Nat)
    (doc : Document) (download : Document → Artifact)
    (hadm : is_admin st.admin_id st.admins actor = true)
    (hpy : (doc.file_name.takeRight 3 == ".py") = true)
    (hcat : (st.loaded_modules.lookup (doc.file_name.dropRight 3)).isSome = true) :
    load_module_handler inst st actor (some doc) download =
      (Answer.conflictPrompt (doc.file_name.dropRight 3), st) ∧
      cancel_load_callback st = (Answer.canceled, st) := by
  constructor
  · simp only [load_module_handler, hadm, hpy, hcat, if_true]
  · rfl

/-- C6 witness: proposing "m.py" while "m" is live yields the conflict
prompt with the state unchanged, and cancelling keeps the state unchanged. -/
theorem c6_witness :
    load_module_handler instOk stLive 1 (some ⟨"m.py"⟩) (fun _ => artGood) =
        (Answer.conflictPrompt "m", stLive) ∧
      cancel_load_callback stLive = (Answer.canceled, stLive) := by
  have h := c6_propose_cancel instOk stLive 1 ⟨"m.py"⟩ (fun _ => artGood)
    (by decide) (by decide) (by decide)
  exact h

/-- C10 (confirmed): upserting an existing registry record via add_module
never changes its origin class: whatever is_system argument is passed, the
stored row keeps its name, added_at and is_system, and only file_path,
is_active and updated_at change; consequently a system-origin record stays
protected from delete_module even after its name is overwritten by a
user-supplied artifact. -/
theorem c10_upsert_preserves_origin (db : List ModuleRow) (name fp : String)
    (b : Bool) (now : Nat) (record : ModuleRow)
    (hget : get_module db name = some record) :
    ∃ db2, add_module true db name fp b now = Except.ok db2 ∧
      (∃ record2, get_module db2 name = some record2 ∧
        record2.is_system = record.is_system ∧ record2.name = record.name ∧
        record2.added_at = record.added_at ∧ record2.file_path = fp ∧
        record2.is_active = true ∧ record2.updated_at = now) ∧
      (record.is_system = true → ∀ k, delete_module k db2 name = (false, db2)) := by
  have hfind : db.find? (fun r => r.name == name) = some record := hget
  have hp : (record.name == name) = true := by
    have := List.find?_some hfind
    exact this
  have hget2 : get_module (db.map (fun r => if r.name == name then
      { r with file_path := fp, is_active := true, updated_at := now } else r)) name =
      some { record with file_path := fp, is_active := true, updated_at := now } := by
    unfold get_module
    rw [List.find?_map]
    have hcomp : ((fun r : ModuleRow => r.name == name) ∘ (fun r : ModuleRow =>
        if r.name == name then
          { r with file_path := fp, is_active := true, updated_at := now }
        else r)) = fun r : ModuleRow => r.name == name := by
      funext r
      by_cases h : (r.name == name) = true
      · simp [Function.comp, h]
      · simp [Function.comp, h]
    rw [hcomp, hfind]
    have hname : record.name = name := by simpa using hp
    simp [hname]
  refine ⟨_, ?_, ⟨_, hget2, rfl, rfl, rfl, rfl, rfl, rfl⟩, ?_⟩
  · unfold add_module
    rw [hfind]
    rfl
  · intro hsys k
    unfold delete_module
    rw [hget2]
    simp [hsys]

/-- C10 witness: overwriting the system record "s" with a user-supplied
artifact path keeps is_system true and delete_module still refuses. -/
theorem c10_witness :
    ∃ db2, add_module true [rowSys] "s" "np" false 9 = Except.ok db2 ∧
      (∃ record2, get_module db2 "s" = some record2 ∧
        record2.is_system = rowSys.is_system ∧ record2.name = rowSys.name ∧
        record2.added_at = rowSys.added_at ∧ record2.file_path = "np" ∧
        record2.is_active = true ∧ record2.updated_at = 9) ∧
      (rowSys.is_system = true → ∀ k, delete_module k db2 "s" = (false, db2)) :=
  c10_upsert_preserves_origin [rowSys] "s" "np" false 9 rowSys (by decide)
